import Mathlib

/-!
# ViroRenderer: texture hydration and choreographer capability flags

A shallow embedding of `VROTexture.cpp` (lazy promotion of a CPU image to a
GPU substrate) and of the capability accessors of `VROChoreographer.h`.

Pointers are modelled as `Option` of an address: `none` is the null pointer.
-/

namespace ViroRenderer

/-! ## Texture resource (`VROTexture.cpp`) -/

/-- Address of a `UIImage` object; a `UIImage *` is an `Option UIImage`. -/
abbrev UIImage := Nat

/-- Address of a `VROTextureSubstrate` object; a `VROTextureSubstrate *` is an
`Option VROTextureSubstrate`. -/
abbrev VROTextureSubstrate := Nat

/-- Handle of a Metal texture; an `id <MTLTexture>` (which may be nil) is an
`Option MTLTexture`. -/
abbrev MTLTexture := Nat

/-- One executed call `context.newTextureSubstrate(image)` together with the
pointer it returned. -/
structure UploadCall where
  image : UIImage
  result : Option VROTextureSubstrate
  deriving DecidableEq

/-- The render context, as far as `VROTexture` uses it: the method
`newTextureSubstrate(image)`. Its declaration is not part of the sources, so it
is left arbitrary. The first argument is the number of uploads performed
before this one, so that a context may answer two calls with different
pointers (fresh allocations) or with the null pointer. The image argument is
non-null because the only call site is guarded by `if (_image)`. -/
structure VRORenderContext where
  newTextureSubstrate : Nat → UIImage → Option VROTextureSubstrate

/-- The two data members of `VROTexture`. -/
structure VROTexture where
  _image : Option UIImage
  _substrate : Option VROTextureSubstrate
  deriving DecidableEq

/-- A texture object together with the log of all uploads performed so far
(the observable effect of `hydrate` outside the object). -/
structure World where
  texture : VROTexture
  uploads : List UploadCall
  deriving DecidableEq

/-- Constructor `VROTexture::VROTexture(id <MTLTexture> texture)`: `_image(nullptr)`, then
`_substrate = new VROTextureSubstrateMetal(texture)`. `fresh` is the address
the `new` expression yields, which is never null. -/
def VROTexture.fromMTLTexture (_texture : Option MTLTexture) (fresh : VROTextureSubstrate) :
    VROTexture :=
  { _image := none, _substrate := some fresh }

/-- Constructor `VROTexture::VROTexture(UIImage *image)`: `_image(image)`,
`_substrate(nullptr)`. -/
def VROTexture.fromUIImage (image : Option UIImage) : VROTexture :=
  { _image := image, _substrate := none }

/-- Method `VROTexture::hydrate(context)`: when `_image` is non-null, upload it,
store the result in `_substrate` and null out `_image`; otherwise nothing. -/
def VROTexture.hydrate (context : VRORenderContext) (w : World) : World :=
  match w.texture._image with
  | some image =>
    let substrate := context.newTextureSubstrate w.uploads.length image
    { texture := { _image := none, _substrate := substrate },
      uploads := w.uploads ++ [{ image := image, result := substrate }] }
  | none => w

/-- Method `VROTexture::getSubstrate(context)`: `if (!_substrate) hydrate(context);
return _substrate;`. Returns the pointer and the resulting world. -/
def VROTexture.getSubstrate (context : VRORenderContext) (w : World) :
    Option VROTextureSubstrate × World :=
  let w1 := if w.texture._substrate.isNone then VROTexture.hydrate context w else w
  (w1.texture._substrate, w1)

/-- A call a client can make on a texture after construction. -/
inductive Call where
  | getSubstrate (context : VRORenderContext)
  | hydrate (context : VRORenderContext)

/-- Effect of one call on the world (the returned pointer is dropped). -/
def Call.apply (c : Call) (w : World) : World :=
  match c with
  | Call.getSubstrate context => (VROTexture.getSubstrate context w).2
  | Call.hydrate context => VROTexture.hydrate context w

/-- Effect of a finite sequence of calls, executed from left to right. -/
def runCalls : List Call → World → World
  | [], w => w
  | c :: cs, w => runCalls cs (c.apply w)

/-- Exactly one of `_image`, `_substrate` is non-null. -/
def VROTexture.exactlyOne (t : VROTexture) : Bool :=
  t._image.isSome != t._substrate.isSome

/-- The two pointers `_image`, `_substrate` are not both non-null. -/
def VROTexture.atMostOne (t : VROTexture) : Bool :=
  !(t._image.isSome && t._substrate.isSome)

/-- Number of uploads performed between world `w` and a later world `w1`. -/
def uploadsBetween (w w1 : World) : Nat :=
  w1.uploads.length - w.uploads.length

/-- A context whose upload always fails (returns the null pointer). -/
def nullContext : VRORenderContext :=
  { newTextureSubstrate := fun _ _ => none }

/-- A context that returns a different non-null address on each upload. -/
def freshContext : VRORenderContext :=
  { newTextureSubstrate := fun n image => some (1000 + 10 * n + image) }

/-- A world holding a texture built from image 7, before any upload. -/
def imageWorld : World :=
  { texture := VROTexture.fromUIImage (some 7), uploads := [] }

/-- A world holding a texture built from a GPU texture, with substrate
address 42, before any upload. -/
def metalWorld : World :=
  { texture := VROTexture.fromMTLTexture (some 3) 42, uploads := [] }

/-! ## Choreographer capability flags (`VROChoreographer.h`) -/

/-- The boolean data members of `VROChoreographer`, in declaration order. -/
structure VROChoreographer where
  _mrtSupported : Bool
  _hdrSupported : Bool
  _hdrEnabled : Bool
  _pbrSupported : Bool
  _pbrEnabled : Bool
  _bloomSupported : Bool
  _bloomEnabled : Bool
  _renderTargetsChanged : Bool
  _renderToTexture : Bool
  _shadowsEnabled : Bool
  deriving DecidableEq

/-- Accessor `bool isHDREnabled() const { return _hdrEnabled; }` -/
def VROChoreographer.isHDREnabled (c : VROChoreographer) : Bool :=
  c._hdrEnabled

/-- Accessor `bool isPBREnabled() const { return _hdrEnabled && _pbrEnabled; }` -/
def VROChoreographer.isPBREnabled (c : VROChoreographer) : Bool :=
  c._hdrEnabled && c._pbrEnabled

/-- Modelled from the spec: the body of `VROChoreographer::setHDREnabled`
(only its declaration and doc comment are in the header). The call returns the
actual resulting state, true only if requested and supported; if the requested
state differs from the current one the render targets are marked as changed.
No other member is touched. -/
def VROChoreographer.setHDREnabled (c : VROChoreographer) (enableHDR : Bool) :
    Bool × VROChoreographer :=
  let actual := enableHDR && c._hdrSupported
  (actual, { c with
    _hdrEnabled := actual,
    _renderTargetsChanged := c._renderTargetsChanged || (enableHDR != c._hdrEnabled) })

/-- Modelled from the spec: the body of `VROChoreographer::setPBREnabled`
(only its declaration and doc comment are in the header). The stored flag
becomes true only if requested and supported; the call returns the actual
resulting state, which is the effective one: stored PBR and HDR enabled. If the
requested state differs from the current one the render targets are marked as
changed. -/
def VROChoreographer.setPBREnabled (c : VROChoreographer) (enablePBR : Bool) :
    Bool × VROChoreographer :=
  let stored := enablePBR && c._pbrSupported
  (stored && c._hdrEnabled, { c with
    _pbrEnabled := stored,
    _renderTargetsChanged := c._renderTargetsChanged || (enablePBR != c._pbrEnabled) })

/-- Modelled from the spec: the body of `VROChoreographer::setBloomEnabled`
(only its declaration and doc comment are in the header): the actual resulting
state is true only if requested and supported. -/
def VROChoreographer.setBloomEnabled (c : VROChoreographer) (enableBloom : Bool) :
    Bool × VROChoreographer :=
  let actual := enableBloom && c._bloomSupported
  (actual, { c with
    _bloomEnabled := actual,
    _renderTargetsChanged := c._renderTargetsChanged || (enableBloom != c._bloomEnabled) })

/-- Modelled from the spec: the body of `VROChoreographer::setShadowsEnabled`
(only its declaration and doc comment are in the header): the actual resulting
state is true only if requested and supported. The header stores no
shadows-supported member, so whether the device supports shadows is the
argument `shadowsSupported`. -/
def VROChoreographer.setShadowsEnabled (c : VROChoreographer) (shadowsSupported : Bool)
    (enableShadows : Bool) : Bool × VROChoreographer :=
  let actual := enableShadows && shadowsSupported
  (actual, { c with
    _shadowsEnabled := actual,
    _renderTargetsChanged := c._renderTargetsChanged || (enableShadows != c._shadowsEnabled) })

/-- A choreographer on a device that supports HDR, PBR and bloom, with all
of them and shadows enabled. -/
def fullChoreographer : VROChoreographer :=
  { _mrtSupported := true, _hdrSupported := true, _hdrEnabled := true,
    _pbrSupported := true, _pbrEnabled := true, _bloomSupported := true,
    _bloomEnabled := true, _renderTargetsChanged := false, _renderToTexture := false,
    _shadowsEnabled := true }

/-- A choreographer on a device that supports none of the optional features,
with everything disabled. -/
def bareChoreographer : VROChoreographer :=
  { _mrtSupported := false, _hdrSupported := false, _hdrEnabled := false,
    _pbrSupported := false, _pbrEnabled := false, _bloomSupported := false,
    _bloomEnabled := false, _renderTargetsChanged := false, _renderToTexture := false,
    _shadowsEnabled := false }

/-! ## Auxiliary facts about hydration -/

theorem hydrate_of_image_none (context : VRORenderContext) (w : World)
    (h : w.texture._image = none) : VROTexture.hydrate context w = w := by
  simp [VROTexture.hydrate, h]

theorem getSubstrate_of_image_none (context : VRORenderContext) (w : World)
    (h : w.texture._image = none) :
    VROTexture.getSubstrate context w = (w.texture._substrate, w) := by
  simp [VROTexture.getSubstrate, hydrate_of_image_none context w h]

theorem apply_of_image_none (c : Call) (w : World) (h : w.texture._image = none) :
    c.apply w = w := by
  cases c with
  | getSubstrate context => simp [Call.apply, getSubstrate_of_image_none context w h]
  | hydrate context => simp [Call.apply, hydrate_of_image_none context w h]

theorem runCalls_of_image_none (cs : List Call) (w : World) (h : w.texture._image = none) :
    runCalls cs w = w := by
  induction cs with
  | nil => rfl
  | cons c cs ih => simp [runCalls, apply_of_image_none c w h, ih]

theorem runCalls_append (cs ds : List Call) (w : World) :
    runCalls (cs ++ ds) w = runCalls ds (runCalls cs w) := by
  induction cs generalizing w with
  | nil => rfl
  | cons c cs ih => simp [runCalls, ih]

/-- One call either changes nothing, or performs exactly one upload of the
held image, stores its result and nulls the image. -/
theorem apply_cases (c : Call) (w : World) :
    c.apply w = w ∨
    ((c.apply w).texture._image = none ∧
      ∃ x : UploadCall, (c.apply w).uploads = w.uploads ++ [x] ∧
        (c.apply w).texture._substrate = x.result ∧ w.texture._image = some x.image) := by
  obtain ⟨⟨image, substrate⟩, log⟩ := w
  cases c <;> cases image <;> cases substrate <;>
    simp [Call.apply, VROTexture.getSubstrate, VROTexture.hydrate]

/-- The same for a whole sequence of calls. -/
theorem runCalls_cases (cs : List Call) (w : World) :
    runCalls cs w = w ∨
    ((runCalls cs w).texture._image = none ∧
      ∃ x : UploadCall, (runCalls cs w).uploads = w.uploads ++ [x] ∧
        (runCalls cs w).texture._substrate = x.result ∧ w.texture._image = some x.image) := by
  induction cs generalizing w with
  | nil => exact Or.inl rfl
  | cons c cs ih =>
    rcases apply_cases c w with h | ⟨h, x, hx⟩
    · simpa [runCalls, h] using ih w
    · right
      have hrun : runCalls (c :: cs) w = c.apply w := by
        simp [runCalls, runCalls_of_image_none cs _ h]
      rw [hrun]
      exact ⟨h, x, hx⟩

theorem atMostOne_apply (c : Call) (w : World) (h : w.texture.atMostOne = true) :
    (c.apply w).texture.atMostOne = true := by
  rcases apply_cases c w with h1 | ⟨h1, _⟩
  · rw [h1]; exact h
  · simp [VROTexture.atMostOne, h1]

theorem atMostOne_runCalls (cs : List Call) (w : World) (h : w.texture.atMostOne = true) :
    (runCalls cs w).texture.atMostOne = true := by
  induction cs generalizing w with
  | nil => exact h
  | cons c cs ih => exact ih _ (atMostOne_apply c w h)

/-- When the substrate is non-null and the image is not held as well, the
image pointer is null. -/
theorem image_none_of_substrate (t : VROTexture) (h : t.atMostOne = true)
    (hs : t._substrate.isSome = true) : t._image = none := by
  obtain ⟨image, substrate⟩ := t
  cases image <;> cases substrate <;> simp_all [VROTexture.atMostOne]

/-! ## Texture hydration: the contract of `getSubstrate` -/

/-- C1: for a texture constructed from a CPU image (null or not) and any
render context, two successive `getSubstrate(context)` calls return the same
pointer; the second call leaves the texture and the upload log untouched, so
`newTextureSubstrate` is invoked by the first call only (once when the image is
non-null, never when it is null). -/
theorem getSubstrate_twice_identical (image : Option UIImage) (context : VRORenderContext)
    (log : List UploadCall) :
    (VROTexture.getSubstrate context
        (VROTexture.getSubstrate context ⟨VROTexture.fromUIImage image, log⟩).2).1
      = (VROTexture.getSubstrate context ⟨VROTexture.fromUIImage image, log⟩).1 ∧
    (VROTexture.getSubstrate context
        (VROTexture.getSubstrate context ⟨VROTexture.fromUIImage image, log⟩).2).2
      = (VROTexture.getSubstrate context ⟨VROTexture.fromUIImage image, log⟩).2 ∧
    uploadsBetween (VROTexture.getSubstrate context ⟨VROTexture.fromUIImage image, log⟩).2
      (VROTexture.getSubstrate context
        (VROTexture.getSubstrate context ⟨VROTexture.fromUIImage image, log⟩).2).2 = 0 ∧
    (VROTexture.getSubstrate context ⟨VROTexture.fromUIImage image, log⟩).2.uploads
      = log ++ image.toList.map
          (fun i => ({ image := i, result := context.newTextureSubstrate log.length i } :
            UploadCall)) := by
  cases image with
  | none =>
    simp [VROTexture.getSubstrate, VROTexture.hydrate, VROTexture.fromUIImage, uploadsBetween]
  | some i =>
    cases h : context.newTextureSubstrate log.length i <;>
      simp [VROTexture.getSubstrate, VROTexture.hydrate, VROTexture.fromUIImage,
        uploadsBetween, h]

/-- C2: on a texture holding image `image` and no substrate, `getSubstrate`
returns exactly `context.newTextureSubstrate(image)`, stores it in `_substrate`
and nulls `_image` (one upload is logged); on a texture that already has a
substrate it returns that substrate and changes neither the fields nor the
upload log. -/
theorem getSubstrate_contract (context : VRORenderContext) (image : UIImage)
    (held : Option UIImage) (substrate : VROTextureSubstrate) (log : List UploadCall) :
    VROTexture.getSubstrate context ⟨⟨some image, none⟩, log⟩
      = (context.newTextureSubstrate log.length image,
          ⟨⟨none, context.newTextureSubstrate log.length image⟩,
            log ++ [⟨image, context.newTextureSubstrate log.length image⟩]⟩) ∧
    VROTexture.getSubstrate context ⟨⟨held, some substrate⟩, log⟩
      = (some substrate, ⟨⟨held, some substrate⟩, log⟩) := by
  constructor <;> simp [VROTexture.getSubstrate, VROTexture.hydrate]

/-- C3 as stated fails: after an upload that returns the null pointer, and
after construction from a null image, both `_image` and `_substrate` are
null. -/
theorem exactlyOne_fails :
    (VROTexture.fromUIImage (some 7)).exactlyOne = true ∧
    (VROTexture.hydrate nullContext ⟨VROTexture.fromUIImage (some 7), []⟩).texture
      = ⟨none, none⟩ ∧
    (VROTexture.getSubstrate nullContext ⟨VROTexture.fromUIImage (some 7), []⟩).2.texture.exactlyOne
      = false ∧
    (VROTexture.fromUIImage none).exactlyOne = false := by
  decide

/-- C3, amended: `_image` and `_substrate` are never both non-null: this
holds after either constructor for every argument and is preserved by
`hydrate` and `getSubstrate` for every context. Exactly one of them is non-null
after the GPU-texture constructor and after the image constructor with a
non-null image, and `hydrate` and `getSubstrate` preserve that whenever the
upload of the held image, if there is one, returns a non-null pointer. -/
theorem atMostOne_invariant (context : VRORenderContext) (w : World)
    (image : Option UIImage) (texture : Option MTLTexture) (fresh : VROTextureSubstrate) :
    (VROTexture.fromUIImage image).atMostOne = true ∧
    (VROTexture.fromMTLTexture texture fresh).atMostOne = true ∧
    (VROTexture.fromMTLTexture texture fresh).exactlyOne = true ∧
    (image.isSome = true → (VROTexture.fromUIImage image).exactlyOne = true) ∧
    (w.texture.atMostOne = true →
      (VROTexture.hydrate context w).texture.atMostOne = true ∧
      (VROTexture.getSubstrate context w).2.texture.atMostOne = true) ∧
    (w.texture.exactlyOne = true →
      (∀ i, w.texture._image = some i →
        (context.newTextureSubstrate w.uploads.length i).isSome = true) →
      (VROTexture.hydrate context w).texture.exactlyOne = true ∧
      (VROTexture.getSubstrate context w).2.texture.exactlyOne = true) := by
  refine ⟨?_, ?_, ?_, ?_, ?_, ?_⟩
  · simp [VROTexture.fromUIImage, VROTexture.atMostOne]
  · simp [VROTexture.fromMTLTexture, VROTexture.atMostOne]
  · simp [VROTexture.fromMTLTexture, VROTexture.exactlyOne]
  · intro h
    simpa [VROTexture.fromUIImage, VROTexture.exactlyOne] using h
  · intro h
    exact ⟨atMostOne_apply (Call.hydrate context) w h,
      atMostOne_apply (Call.getSubstrate context) w h⟩
  · obtain ⟨⟨img, sub⟩, log⟩ := w
    intro h hup
    cases img with
    | none =>
      cases sub <;>
        simp_all [VROTexture.exactlyOne, VROTexture.getSubstrate, VROTexture.hydrate]
    | some i =>
      have hi := hup i rfl
      cases sub <;>
        simp_all [VROTexture.exactlyOne, VROTexture.getSubstrate, VROTexture.hydrate]

/-- C3, amended, at a concrete input: a texture built from image 7 and
hydrated through a context whose upload succeeds. -/
theorem atMostOne_invariant_witness :
    (VROTexture.fromUIImage (some 7)).atMostOne = true ∧
    (VROTexture.hydrate freshContext ⟨VROTexture.fromUIImage (some 7), []⟩).texture.atMostOne
      = true ∧
    (VROTexture.hydrate freshContext ⟨VROTexture.fromUIImage (some 7), []⟩).texture.exactlyOne
      = true :=
  have h := atMostOne_invariant freshContext ⟨VROTexture.fromUIImage (some 7), []⟩
    (some 7) none 1
  ⟨h.1, (h.2.2.2.2.1 (by decide)).1,
    (h.2.2.2.2.2 (by decide) (fun _ _ => by simp [freshContext])).1⟩

/-- C4 as stated fails: a context whose upload returns the null pointer makes
`getSubstrate` return null for a texture built from a non-null image; so does
any context for a texture built from a null image pointer. -/
theorem getSubstrate_null :
    (VROTexture.getSubstrate nullContext ⟨VROTexture.fromUIImage (some 7), []⟩).1 = none ∧
    (VROTexture.getSubstrate freshContext ⟨VROTexture.fromUIImage none, []⟩).1 = none := by
  decide

/-- C4, amended: for a texture constructed from a non-null CPU image and a
context whose upload of that image returns a non-null pointer,
`getSubstrate(context)` returns that non-null pointer. -/
theorem getSubstrate_nonnull (image : UIImage) (context : VRORenderContext)
    (log : List UploadCall)
    (h : (context.newTextureSubstrate log.length image).isSome = true) :
    (VROTexture.getSubstrate context ⟨VROTexture.fromUIImage (some image), log⟩).1.isSome
      = true ∧
    (VROTexture.getSubstrate context ⟨VROTexture.fromUIImage (some image), log⟩).1
      = context.newTextureSubstrate log.length image := by
  simp [VROTexture.getSubstrate, VROTexture.hydrate, VROTexture.fromUIImage, h]

/-- C4, amended, at a concrete input: image 7 uploaded through a context that
allocates address 1007 for it. -/
theorem getSubstrate_nonnull_witness :
    (freshContext.newTextureSubstrate ([] : List UploadCall).length 7).isSome = true ∧
    (VROTexture.getSubstrate freshContext ⟨VROTexture.fromUIImage (some 7), []⟩).1
      = some 1007 :=
  ⟨by decide, (getSubstrate_nonnull 7 freshContext [] (by decide)).2.trans (by decide)⟩

/-! ## Texture hydration over sequences of calls -/

/-- C8: in a state reached from either constructor by any sequence `pre` of
`getSubstrate` and `hydrate` calls, if the substrate is non-null then after
any further calls `post` the substrate is still the same pointer, and if the
image pointer is null it is still null after `post`. -/
theorem hydration_one_way (w0 : World) (image : Option UIImage)
    (texture : Option MTLTexture) (fresh : VROTextureSubstrate) (pre post : List Call)
    (hinit : w0.texture = VROTexture.fromUIImage image ∨
      w0.texture = VROTexture.fromMTLTexture texture fresh) :
    ((runCalls pre w0).texture._substrate.isSome = true →
      (runCalls (pre ++ post) w0).texture._substrate = (runCalls pre w0).texture._substrate) ∧
    ((runCalls pre w0).texture._image = none →
      (runCalls (pre ++ post) w0).texture._image = none) := by
  have h0 : w0.texture.atMostOne = true := by
    rcases hinit with h | h <;>
      simp [h, VROTexture.fromUIImage, VROTexture.fromMTLTexture, VROTexture.atMostOne]
  have h1 := atMostOne_runCalls pre w0 h0
  rw [runCalls_append]
  constructor
  · intro hs
    rw [runCalls_of_image_none post _ (image_none_of_substrate _ h1 hs)]
  · intro hi
    rw [runCalls_of_image_none post _ hi]
    exact hi

/-- C8 at a concrete input: a texture built from image 7 is hydrated, then
asked for its substrate through a failing context and hydrated again; the
substrate stays at address 1007 and the image stays null. -/
theorem hydration_one_way_witness :
    (runCalls ([Call.hydrate freshContext] ++
        [Call.getSubstrate nullContext, Call.hydrate freshContext]) imageWorld).texture
      = ⟨none, some 1007⟩ := by
  have h := hydration_one_way imageWorld (some 7) none 0 [Call.hydrate freshContext]
    [Call.getSubstrate nullContext, Call.hydrate freshContext] (Or.inl rfl)
  have hs := h.1 (by decide)
  have hi := h.2 (by decide)
  have hpre : (runCalls [Call.hydrate freshContext] imageWorld).texture._substrate
      = some 1007 := by decide
  rw [hpre] at hs
  generalize (runCalls ([Call.hydrate freshContext] ++
    [Call.getSubstrate nullContext, Call.hydrate freshContext]) imageWorld).texture = t at hs hi
  obtain ⟨i, s⟩ := t
  simp only at hs hi
  rw [hs, hi]

/-- C9: over any sequence of `getSubstrate` and `hydrate` calls on one texture
(in any starting state) the upload log grows by at most one entry. If it grew
by an upload that returned null, the texture now has a null image and a null
substrate, and after any further calls `getSubstrate` still returns null and
leaves the world, upload log included, as it was. -/
theorem upload_at_most_once (w : World) (pre post : List Call) (context : VRORenderContext) :
    (∃ extra : List UploadCall,
      (runCalls pre w).uploads = w.uploads ++ extra ∧ extra.length ≤ 1) ∧
    uploadsBetween w (runCalls pre w) ≤ 1 ∧
    (∀ image : UIImage, (runCalls pre w).uploads = w.uploads ++ [⟨image, none⟩] →
      (runCalls pre w).texture = ⟨none, none⟩ ∧
      VROTexture.getSubstrate context (runCalls (pre ++ post) w)
        = (none, runCalls pre w)) := by
  rcases runCalls_cases pre w with h | ⟨hi, x, hx, hs, _⟩
  · refine ⟨⟨[], by simp [h]⟩, by simp [h, uploadsBetween], ?_⟩
    intro image himg
    rw [h] at himg
    simp at himg
  · refine ⟨⟨[x], hx, by simp⟩, by simp [hx, uploadsBetween], ?_⟩
    intro image himg
    rw [hx] at himg
    have hxe : x = ⟨image, none⟩ := by simpa using himg
    have ht : (runCalls pre w).texture = ⟨none, none⟩ := by
      generalize (runCalls pre w).texture = t at hi hs
      obtain ⟨i, s⟩ := t
      simp only at hi hs
      rw [hi, hs, hxe]
    refine ⟨ht, ?_⟩
    rw [runCalls_append, runCalls_of_image_none post _ hi,
      getSubstrate_of_image_none context _ hi, ht]

/-- C9 at a concrete input: image 7 is uploaded once through a failing
context; a later `getSubstrate` through a working context returns null and
does not upload. -/
theorem upload_at_most_once_witness :
    VROTexture.getSubstrate freshContext
        (runCalls ([Call.getSubstrate nullContext] ++ [Call.hydrate freshContext]) imageWorld)
      = (none, ⟨⟨none, none⟩, [⟨7, none⟩]⟩) :=
  ((upload_at_most_once imageWorld [Call.getSubstrate nullContext]
      [Call.hydrate freshContext] freshContext).2.2 7 (by decide)).2.trans (by decide)

/-- C10: a texture constructed from a GPU texture has a null image and the
non-null substrate created by the constructor; any sequence of `getSubstrate`
and `hydrate` calls leaves the texture and the upload log unchanged, and
`getSubstrate` afterwards returns the constructor-created substrate. In any
state with a null image, `hydrate` changes nothing. -/
theorem metal_texture_frame (texture : Option MTLTexture) (fresh : VROTextureSubstrate)
    (log : List UploadCall) (cs : List Call) (context : VRORenderContext)
    (substrate : Option VROTextureSubstrate) :
    (VROTexture.fromMTLTexture texture fresh)._image = none ∧
    (VROTexture.fromMTLTexture texture fresh)._substrate = some fresh ∧
    runCalls cs ⟨VROTexture.fromMTLTexture texture fresh, log⟩
      = ⟨VROTexture.fromMTLTexture texture fresh, log⟩ ∧
    VROTexture.getSubstrate context (runCalls cs ⟨VROTexture.fromMTLTexture texture fresh, log⟩)
      = (some fresh, ⟨VROTexture.fromMTLTexture texture fresh, log⟩) ∧
    VROTexture.hydrate context (runCalls cs ⟨VROTexture.fromMTLTexture texture fresh, log⟩)
      = ⟨VROTexture.fromMTLTexture texture fresh, log⟩ ∧
    VROTexture.hydrate context ⟨⟨none, substrate⟩, log⟩ = ⟨⟨none, substrate⟩, log⟩ := by
  have hrun : runCalls cs ⟨VROTexture.fromMTLTexture texture fresh, log⟩
      = ⟨VROTexture.fromMTLTexture texture fresh, log⟩ :=
    runCalls_of_image_none cs _ rfl
  refine ⟨rfl, rfl, hrun, ?_, ?_, ?_⟩
  · rw [hrun, getSubstrate_of_image_none context _ rfl]
    rfl
  · rw [hrun, hydrate_of_image_none context _ rfl]
  · exact hydrate_of_image_none context _ rfl

/-! ## Choreographer capability negotiation -/

/-- C5: in every choreographer state `isPBREnabled()` is true exactly when the
stored PBR flag is true and `isHDREnabled()` is true; in particular
`isPBREnabled()` implies `isHDREnabled()`. -/
theorem isPBREnabled_iff (c : VROChoreographer) :
    (c.isPBREnabled = true ↔ (c._pbrEnabled = true ∧ c.isHDREnabled = true)) ∧
    (c.isPBREnabled = true → c.isHDREnabled = true) := by
  simp only [VROChoreographer.isPBREnabled, VROChoreographer.isHDREnabled, Bool.and_eq_true]
  exact ⟨⟨fun h => ⟨h.2, h.1⟩, fun h => ⟨h.2, h.1⟩⟩, fun h => h.1⟩

/-- C6: when HDR is supported and the stored PBR flag is true, disabling HDR
makes `isPBREnabled()` false and leaves the stored PBR flag true, and enabling
HDR again makes `isPBREnabled()` true. -/
theorem hdr_off_on_restores_pbr (c : VROChoreographer) (hsup : c._hdrSupported = true)
    (hpbr : c._pbrEnabled = true) :
    (c.setHDREnabled false).2.isPBREnabled = false ∧
    (c.setHDREnabled false).2._pbrEnabled = true ∧
    (((c.setHDREnabled false).2.setHDREnabled true).2.isPBREnabled = true) ∧
    (((c.setHDREnabled false).2.setHDREnabled true).2._pbrEnabled = true) := by
  simp [VROChoreographer.setHDREnabled, VROChoreographer.isPBREnabled, hsup, hpbr]

/-- C6 at a concrete input: a fully capable choreographer with HDR and PBR
on. -/
theorem hdr_off_on_restores_pbr_witness :
    fullChoreographer._hdrSupported = true ∧ fullChoreographer._pbrEnabled = true ∧
    (fullChoreographer.setHDREnabled false).2.isPBREnabled = false ∧
    (((fullChoreographer.setHDREnabled false).2.setHDREnabled true).2.isPBREnabled = true) :=
  have h := hdr_off_on_restores_pbr fullChoreographer rfl rfl
  ⟨rfl, rfl, h.1, h.2.2.1⟩

/-- C7: `set<Feature>Enabled(true)` for a feature the device does not support
returns false and leaves the feature off (for HDR and PBR the accessors
`isHDREnabled()` and `isPBREnabled()` are false afterwards), for HDR, PBR,
bloom and shadows; `setPBREnabled(true)` also returns false when HDR is not
enabled. -/
theorem set_enabled_unsupported (c : VROChoreographer) :
    (c._hdrSupported = false →
      (c.setHDREnabled true).1 = false ∧ (c.setHDREnabled true).2.isHDREnabled = false) ∧
    (c._pbrSupported = false →
      (c.setPBREnabled true).1 = false ∧ (c.setPBREnabled true).2.isPBREnabled = false) ∧
    (c._bloomSupported = false →
      (c.setBloomEnabled true).1 = false ∧ (c.setBloomEnabled true).2._bloomEnabled = false) ∧
    ((c.setShadowsEnabled false true).1 = false ∧
      (c.setShadowsEnabled false true).2._shadowsEnabled = false) ∧
    (c.isHDREnabled = false → (c.setPBREnabled true).1 = false) := by
  refine ⟨?_, ?_, ?_, ?_, ?_⟩
  · intro h
    simp [VROChoreographer.setHDREnabled, VROChoreographer.isHDREnabled, h]
  · intro h
    simp [VROChoreographer.setPBREnabled, VROChoreographer.isPBREnabled, h]
  · intro h
    simp [VROChoreographer.setBloomEnabled, h]
  · simp [VROChoreographer.setShadowsEnabled]
  · intro h
    simp only [VROChoreographer.isHDREnabled] at h
    simp [VROChoreographer.setPBREnabled, h]

/-- C7 at a concrete input: a device without HDR, PBR or bloom support, and a
capable device on which HDR has been switched off. -/
theorem set_enabled_unsupported_witness :
    (bareChoreographer.setHDREnabled true).1 = false ∧
    (bareChoreographer.setPBREnabled true).2.isPBREnabled = false ∧
    (bareChoreographer.setBloomEnabled true).2._bloomEnabled = false ∧
    ((fullChoreographer.setHDREnabled false).2.setPBREnabled true).1 = false :=
  ⟨((set_enabled_unsupported bareChoreographer).1 rfl).1,
    ((set_enabled_unsupported bareChoreographer).2.1 rfl).2,
    ((set_enabled_unsupported bareChoreographer).2.2.1 rfl).2,
    (set_enabled_unsupported (fullChoreographer.setHDREnabled false).2).2.2.2.2 rfl⟩

end ViroRenderer
